import Mathlib

set_option maxRecDepth 40000

/-!
# Verification of the Soft Melanin content engine

A shallow embedding of the content generator (`packages/engine/src/generator.ts`),
the deterministic validators (`packages/engine/src/validators.ts`), the shared
constants (`packages/shared/src/types.ts`), the scheduler failure handling
(`apps/web/lib/social/scheduler.ts`) and the scheduled-post API route
(`apps/web/app/api/social/scheduled/route.ts`), together with theorems about
their behaviour.

Modelling conventions:
* TypeScript strings are Lean `String`s; all string scanning is done on the
  underlying character list so that every definition evaluates by kernel
  reduction.  The JavaScript regex `\s` is modelled by `Char.isWhitespace`
  and `toLowerCase` by ASCII lowercasing; all contents the code and the
  spec talk about are ASCII.
* Fallible TypeScript code (a provider call that may throw, `JSON.parse`)
  is modelled with `Except String`.
* The LLM provider composed with `parseJSON` is modelled as an oracle
  function from the prompt inputs (the exact record passed to
  `buildGenerationPrompt`) and the sampling temperature to either an error
  message (a thrown exception) or a parsed partial record.
* `Date.now()` instants are integers (milliseconds); the database rows
  touched by the scheduler are explicit records, and a database `update`
  writing a subset of columns is a record update of exactly those fields.
-/

namespace SoftMelanin

-- ===========================================================================
-- Shared types and constants (packages/shared/src/types.ts)
-- ===========================================================================

inductive Segment where
  | overextended_professional
  | healing_high_achiever
  | creative_reclaimer
deriving DecidableEq, Repr

inductive Platform where
  | linkedin_founder
  | linkedin_company
  | substack
deriving DecidableEq, Repr

/-- The string value of a `Platform` as it appears in TypeScript. -/
def Platform.str : Platform → String
  | .linkedin_founder => "linkedin_founder"
  | .linkedin_company => "linkedin_company"
  | .substack => "substack"

/-- The string value of a `Segment` as it appears in TypeScript. -/
def Segment.str : Segment → String
  | .overextended_professional => "overextended_professional"
  | .healing_high_achiever => "healing_high_achiever"
  | .creative_reclaimer => "creative_reclaimer"

/-- `BRAND_PALETTE` from `types.ts`. -/
def BRAND_PALETTE : List String := ["#6e3f2b", "#a6683f", "#d2955e"]

/-- `PRIMARY_HASHTAGS` from `types.ts`. -/
def PRIMARY_HASHTAGS : List String :=
  ["#SoftMelanin", "#SoftnessIsPower", "#SoftnessStrategist", "#BoundariesAreSoftness"]

structure PlatformConfig where
  name : String
  minWords : Nat
  maxWords : Nat
  requiresTripleS : Bool
  requiresSEO : Bool
deriving DecidableEq, Repr

/-- `PLATFORM_CONFIGS` from `types.ts` (theme lists are prompt-only data and
are not part of the validated configuration). -/
def PLATFORM_CONFIGS : Platform → PlatformConfig
  | .linkedin_founder =>
      { name := "LinkedIn Founder Post", minWords := 150, maxWords := 300,
        requiresTripleS := true, requiresSEO := false }
  | .linkedin_company =>
      { name := "LinkedIn Company Post", minWords := 150, maxWords := 300,
        requiresTripleS := true, requiresSEO := false }
  | .substack =>
      { name := "Substack Article", minWords := 1000, maxWords := 1500,
        requiresTripleS := false, requiresSEO := true }

structure TripleSStop where
  hook : String
  fiveC : String
deriving DecidableEq, Repr

structure TripleSStay where
  story : String
deriving DecidableEq, Repr

structure TripleSShare where
  takeaways : List String
  cta : String
deriving DecidableEq, Repr

structure TripleS where
  stop : TripleSStop
  stay : TripleSStay
  share : TripleSShare
deriving DecidableEq, Repr

structure SOFTFramework where
  separate : String
  own : String
  filter : String
  thrive : String
deriving DecidableEq, Repr

structure Visual where
  prompt : String
  palette : List String
  quoteCardTextOptions : List String
deriving DecidableEq, Repr

structure ProductMention where
  offering : String
  placement : String
  text : String
deriving DecidableEq, Repr

structure ABVariant where
  label : String
  hook : String
deriving DecidableEq, Repr

structure Growth where
  bestPostingTimes : List String
  repurposingIdeas : List String
  abVariants : Option (List ABVariant)
deriving DecidableEq, Repr

structure QAValidation where
  authenticityPass : Bool
  brandVoicePass : Bool
  culturalSensitivityPass : Bool
  businessRelevancePass : Bool
  errors : List String
deriving DecidableEq, Repr

/-- `ContentArtifact` from `types.ts` (the `createdAt`/`updatedAt` wall-clock
stamps are omitted: no verified code path reads them). -/
structure ContentArtifact where
  platform : Platform
  segment : Segment
  hook : String
  body : String
  tripleS : TripleS
  soft : SOFTFramework
  hashtags : List String
  seoTags : Option (List String)
  visual : Visual
  productMentions : Option (List ProductMention)
  growth : Growth
  qa : QAValidation
  seedIdea : Option String
  monthlyTheme : Option String
deriving DecidableEq, Repr

-- ===========================================================================
-- String scanning helpers (kernel-computable models of the JS operations)
-- ===========================================================================

/-- Accumulate whitespace-separated nonempty tokens; model of
`content.split(/\s+/).filter(w => w.length > 0)`. -/
def wordsGo : List Char → List Char → List String
  | [], cur => if cur.isEmpty then [] else [String.mk cur.reverse]
  | c :: rest, cur =>
      if c.isWhitespace then
        (if cur.isEmpty then [] else [String.mk cur.reverse]) ++ wordsGo rest []
      else
        wordsGo rest (c :: cur)

/-- The nonempty whitespace-separated tokens of a string. -/
def wordsOf (s : String) : List String := wordsGo s.data []

/-- `content.split(/\s+/).filter(w => w.length > 0).length` from
`validators.ts`. -/
def countWords (s : String) : Nat := (wordsOf s).length

/-- Does `pat` occur as a contiguous substring of `hay`? -/
def containsSub (pat : List Char) : List Char → Bool
  | [] => pat.isPrefixOf []
  | c :: rest => pat.isPrefixOf (c :: rest) || containsSub pat rest

/-- Model of JavaScript `hay.includes(pat)`. -/
def strContains (hay pat : String) : Bool := containsSub pat.data hay.data

/-- ASCII lowercasing; model of `toLowerCase()` on the ASCII content the
validators scan. -/
def lowerStr (s : String) : String := String.mk (s.data.map Char.toLower)

/-- Model of `tag.startsWith("#")`. -/
def startsWithHash (t : String) : Bool :=
  match t.data with
  | '#' :: _ => true
  | _ => false

/-- Split into paragraphs at runs of two or more newlines; model of
`content.split(/\n\n+/)`.  `acc` is the reversed current paragraph, `pend`
the number of newlines seen but not yet classified. -/
def paraGo : List Char → List Char → Nat → List (List Char)
  | [], acc, pend =>
      if 2 ≤ pend then [acc.reverse, []]
      else [acc.reverse ++ List.replicate pend '\n']
  | '\n' :: rest, acc, pend => paraGo rest acc (pend + 1)
  | c :: rest, acc, pend =>
      if 2 ≤ pend then acc.reverse :: paraGo rest [c] 0
      else paraGo rest (c :: (List.replicate pend '\n' ++ acc)) 0

/-- The paragraphs of a string, as in `validateWhitespaceFormatting`. -/
def splitParagraphs (s : String) : List String :=
  (paraGo s.data [] 0).map String.mk

-- ===========================================================================
-- Deterministic validators (packages/engine/src/validators.ts)
-- ===========================================================================

structure ValidationResult where
  isValid : Bool
  errors : List String
deriving DecidableEq, Repr

/-- The below-minimum message of `validateWordCount`. -/
def wcBelowMsg (wordCount mn : Nat) (name : String) : String :=
  s!"Word count {wordCount} is below minimum {mn} for {name}"

/-- The above-maximum message of `validateWordCount`. -/
def wcAboveMsg (wordCount mx : Nat) (name : String) : String :=
  s!"Word count {wordCount} exceeds maximum {mx} for {name}"

/-- `validateWordCount` from `validators.ts`. -/
def validateWordCount (content : String) (platform : Platform) : ValidationResult :=
  let config := PLATFORM_CONFIGS platform
  let wordCount := countWords content
  let errors :=
    (if wordCount < config.minWords then [wcBelowMsg wordCount config.minWords config.name] else [])
    ++ (if wordCount > config.maxWords then [wcAboveMsg wordCount config.maxWords config.name] else [])
  { isValid := errors.isEmpty, errors := errors }

/-- `validateWhitespaceFormatting` from `validators.ts`. -/
def validateWhitespaceFormatting (content : String) (platform : Platform) : ValidationResult :=
  let errors :=
    if platform = .linkedin_founder ∨ platform = .linkedin_company then
      let paragraphs := splitParagraphs content
      (if paragraphs.length < 3 then
        ["LinkedIn posts should have at least 3 paragraphs for mobile readability"]
      else [])
      ++ (if paragraphs.any (fun para => countWords para > 50) then
        ["Paragraphs should be under 50 words for mobile readability"]
      else [])
    else []
  { isValid := errors.isEmpty, errors := errors }

/-- The falsy-or-short test `!s || s.length < n` used throughout the
validators (for a JS string, `!s` holds exactly when it is empty). -/
def shortStr (s : String) (n : Nat) : Bool := s.isEmpty || s.length < n

/-- `validateSOFTMapping` from `validators.ts`. -/
def validateSOFTMapping (artifact : ContentArtifact) : ValidationResult :=
  let soft := artifact.soft
  let errors :=
    (if shortStr soft.separate 10 then ["SOFT 'Separate' element must be meaningful (min 10 chars)"] else [])
    ++ (if shortStr soft.own 10 then ["SOFT 'Own' element must be meaningful (min 10 chars)"] else [])
    ++ (if shortStr soft.filter 10 then ["SOFT 'Filter' element must be meaningful (min 10 chars)"] else [])
    ++ (if shortStr soft.thrive 10 then ["SOFT 'Thrive' element must be meaningful (min 10 chars)"] else [])
  { isValid := errors.isEmpty, errors := errors }

/-- `validateTripleS` from `validators.ts`. -/
def validateTripleS (artifact : ContentArtifact) : ValidationResult :=
  let config := PLATFORM_CONFIGS artifact.platform
  let errors :=
    if config.requiresTripleS then
      let tripleS := artifact.tripleS
      (if shortStr tripleS.stop.hook 5 then ["Triple S STOP hook must be present"] else [])
      ++ (if tripleS.stop.fiveC.isEmpty then ["Triple S must specify which of the 5 C's the hook uses"] else [])
      ++ (if shortStr tripleS.stay.story 20 then ["Triple S STAY story must be meaningful (min 20 chars)"] else [])
      ++ (if tripleS.share.takeaways.isEmpty then ["Triple S SHARE must include at least one takeaway"] else [])
      ++ (if shortStr tripleS.share.cta 5 then ["Triple S SHARE must include a CTA"] else [])
    else []
  { isValid := errors.isEmpty, errors := errors }

/-- The debate-inviting phrases scanned by `validateCTA`. -/
def debatePatterns : List String :=
  ["what do you think?", "agree or disagree", "am i right", "change my mind",
   "fight me", "prove me wrong", "debate me", "hot take"]

/-- `validateCTA` from `validators.ts`: one message per matched phrase. -/
def validateCTA (cta : String) : ValidationResult :=
  let ctaLower := lowerStr cta
  let errors := (debatePatterns.filter (fun pat => strContains ctaLower pat)).map
    (fun pat => s!"CTA contains debate-inviting language: \"{pat}\". Use reflective CTAs instead.")
  { isValid := errors.isEmpty, errors := errors }

/-- The primary-hashtag shortfall message of `validateHashtags`. -/
def primaryShortfallMsg (primaryCount : Nat) : String :=
  let joined := String.intercalate ", " PRIMARY_HASHTAGS
  s!"Only {primaryCount} primary brand hashtags found. Minimum 2 required from: {joined}"

/-- `validateHashtags` from `validators.ts`. -/
def validateHashtags (hashtags : List String) : ValidationResult :=
  let n := hashtags.length
  let countErrors :=
    (if n < 3 then [s!"Hashtag count {n} is below minimum 3"] else [])
    ++ (if n > 5 then [s!"Hashtag count {n} exceeds maximum 5"] else [])
  let primaryCount := (hashtags.filter (fun tag => PRIMARY_HASHTAGS.contains tag)).length
  let primaryErrors :=
    if primaryCount < 2 then [primaryShortfallMsg primaryCount] else []
  let prefixErrors :=
    (hashtags.filter (fun tag => !startsWithHash tag)).map
      (fun tag => s!"Hashtag \"{tag}\" must start with #")
  let errors := countErrors ++ primaryErrors ++ prefixErrors
  { isValid := errors.isEmpty, errors := errors }

/-- `validateSEOTags` from `validators.ts`. -/
def validateSEOTags (artifact : ContentArtifact) : ValidationResult :=
  let config := PLATFORM_CONFIGS artifact.platform
  let errors :=
    if config.requiresSEO then
      match artifact.seoTags with
      | none => ["Substack articles require SEO tags"]
      | some tags =>
        if tags.isEmpty then ["Substack articles require SEO tags"]
        else if tags.length < 3 then ["Substack articles should have at least 3 SEO tags"]
        else []
    else []
  { isValid := errors.isEmpty, errors := errors }

/-- The literal robotic-phrasing patterns of `ROBOTIC_PATTERNS` (each is a
case-insensitive substring match). -/
def roboticPatterns : List String :=
  ["as an ai", "i don't have feelings", "i cannot", "i'm sorry, but",
   "it's important to note", "it should be noted", "in conclusion",
   "to summarize", "therefore", "furthermore", "moreover", "in my opinion",
   "i believe that"]

/-- The literal influencer patterns of `INFLUENCER_PATTERNS` other than
`/drop a .* if/i`. -/
def influencerLiteralPatterns : List String :=
  ["smash that", "link in bio", "swipe up", "don't forget to like",
   "subscribe for more", "follow for more", "double tap", "tag someone",
   "share this with", "repost if"]

/-- Model of `/drop a .* if/i` on lowercased text: an occurrence of
`"drop a "` followed, before the next newline, by `" if"` (`.` does not
match a newline). -/
def matchesDropAIf (lc : String) : Bool :=
  ((lc.data.tails).filter (fun t => ("drop a ".data).isPrefixOf t)).any
    (fun t => containsSub " if".data ((t.drop 7).takeWhile (fun c => c ≠ '\n')))

/-- `validateBrandVoice` from `validators.ts`: at most one message per
pattern category (the source breaks at the first matching pattern). -/
def validateBrandVoice (content : String) : ValidationResult :=
  let lc := lowerStr content
  let errors :=
    (if roboticPatterns.any (fun pat => strContains lc pat) then
      ["Content contains robotic language pattern. Remove AI-sounding phrases."]
    else [])
    ++ (if matchesDropAIf lc || influencerLiteralPatterns.any (fun pat => strContains lc pat) then
      ["Content contains generic influencer language. Maintain brand voice."]
    else [])
  { isValid := errors.isEmpty, errors := errors }

/-- `validateVisual` from `validators.ts`. -/
def validateVisual (artifact : ContentArtifact) : ValidationResult :=
  let errors :=
    (if shortStr artifact.visual.prompt 20 then
      ["Visual prompt must be at least 20 characters for useful generation"]
    else [])
    ++ (if artifact.visual.quoteCardTextOptions.length < 1 then
      ["At least one quote card text option required"]
    else [])
    ++ (if (artifact.visual.palette.getD 0 "") ≠ "#6e3f2b"
          ∨ (artifact.visual.palette.getD 1 "") ≠ "#a6683f"
          ∨ (artifact.visual.palette.getD 2 "") ≠ "#d2955e" then
      ["Visual palette must use brand colors: #6e3f2b, #a6683f, #d2955e"]
    else [])
  { isValid := errors.isEmpty, errors := errors }

structure FullValidationResult where
  isValid : Bool
  qa : QAValidation
deriving DecidableEq, Repr

/-- The hook and body joined by a blank line, as built in `validateArtifact`. -/
def fullContentOf (artifact : ContentArtifact) : String :=
  artifact.hook ++ "\n\n" ++ artifact.body

/-- `validateArtifact` from `validators.ts`: runs every validator, collects
all errors in source order, and derives the four QA booleans. -/
def validateArtifact (artifact : ContentArtifact) : FullValidationResult :=
  let fullContent := fullContentOf artifact
  let wordCountResult := validateWordCount fullContent artifact.platform
  let whitespaceResult := validateWhitespaceFormatting fullContent artifact.platform
  let softResult := validateSOFTMapping artifact
  let tripleSResult := validateTripleS artifact
  let ctaResult := validateCTA artifact.tripleS.share.cta
  let hashtagResult := validateHashtags artifact.hashtags
  let seoResult := validateSEOTags artifact
  let brandVoiceResult := validateBrandVoice fullContent
  let visualResult := validateVisual artifact
  let allErrors :=
    wordCountResult.errors ++ whitespaceResult.errors ++ softResult.errors
    ++ tripleSResult.errors ++ ctaResult.errors ++ hashtagResult.errors
    ++ seoResult.errors ++ brandVoiceResult.errors ++ visualResult.errors
  { isValid := allErrors.isEmpty,
    qa :=
      { authenticityPass := brandVoiceResult.isValid,
        brandVoicePass := brandVoiceResult.isValid && ctaResult.isValid,
        culturalSensitivityPass := true,
        businessRelevancePass := softResult.isValid && tripleSResult.isValid,
        errors := allErrors } }

-- ===========================================================================
-- Content generator (packages/engine/src/generator.ts)
-- ===========================================================================

/-- The shape of `parsed.visual` before normalization. -/
structure ParsedVisual where
  prompt : Option String
  palette : Option (List String)
  quoteCardTextOptions : Option (List String)
deriving DecidableEq, Repr

/-- A parsed LLM response: `Partial<ContentArtifact>` as consumed by
`normalizeArtifact` (only the fields normalization reads). -/
structure ParsedArtifact where
  hook : Option String
  body : Option String
  tripleS : Option TripleS
  soft : Option SOFTFramework
  hashtags : Option (List String)
  seoTags : Option (List String)
  visual : Option ParsedVisual
  productMentions : Option (List ProductMention)
  growth : Option Growth
  qa : Option QAValidation
deriving DecidableEq, Repr

/-- A wholly absent parsed record (every field missing). -/
def emptyParsed : ParsedArtifact :=
  { hook := none, body := none, tripleS := none, soft := none, hashtags := none,
    seoTags := none, visual := none, productMentions := none, growth := none,
    qa := none }

/-- The default `tripleS` substituted by `normalizeArtifact`. -/
def defaultTripleS : TripleS :=
  { stop := { hook := "", fiveC := "curiosity" },
    stay := { story := "" },
    share := { takeaways := [], cta := "" } }

/-- The default `soft` substituted by `normalizeArtifact`. -/
def defaultSoft : SOFTFramework :=
  { separate := "", own := "", filter := "", thrive := "" }

/-- The default `growth` substituted by `normalizeArtifact`. -/
def defaultGrowth : Growth :=
  { bestPostingTimes := [], repurposingIdeas := [], abVariants := none }

/-- The default `qa` substituted by `normalizeArtifact`. -/
def defaultQA : QAValidation :=
  { authenticityPass := false, brandVoicePass := false,
    culturalSensitivityPass := false, businessRelevancePass := false,
    errors := [] }

/-- `ContentGenerator.normalizeArtifact` from `generator.ts`: fill every
required field with a safe default when absent and force `visual.palette`
to `BRAND_PALETTE`. -/
def normalizeArtifact (parsed : ParsedArtifact) (segment : Segment)
    (platform : Platform) (seedIdea : String) (monthlyTheme : Option String) :
    ContentArtifact :=
  { platform := platform,
    segment := segment,
    hook := (parsed.hook.getD ""),
    body := (parsed.body.getD ""),
    tripleS := parsed.tripleS.getD defaultTripleS,
    soft := parsed.soft.getD defaultSoft,
    hashtags := parsed.hashtags.getD [],
    seoTags := parsed.seoTags,
    visual :=
      { prompt := ((parsed.visual.map (·.prompt)).join.getD ""),
        palette := BRAND_PALETTE,
        quoteCardTextOptions := ((parsed.visual.map (·.quoteCardTextOptions)).join.getD []) },
    productMentions := parsed.productMentions,
    growth := parsed.growth.getD defaultGrowth,
    qa := parsed.qa.getD defaultQA,
    seedIdea := some seedIdea,
    monthlyTheme := monthlyTheme }

/-- The inputs of `buildGenerationPrompt`: the prompt string rendered by the
prompt composer is a pure function of exactly this record, so the provider
is modelled as consuming the record itself. -/
structure GenPrompt where
  seedIdea : String
  monthlyTheme : Option String
  segment : Segment
  platform : Platform
  includeProductMentions : Option Bool
  isRewrite : Bool
  previousErrors : Option (List String)
deriving DecidableEq, Repr

/-- The `options` argument of `generateArtifact`. -/
structure GenOptions where
  monthlyTheme : Option String
  includeProductMentions : Option Bool
  generateABVariants : Option Bool
deriving DecidableEq, Repr

/-- The LLM provider composed with `parseJSON`, as seen by the retry loop:
given the prompt inputs and the sampling temperature, either throw an error
message or produce a parsed partial record. -/
def Oracle : Type := GenPrompt → Rat → Except String ParsedArtifact

/-- An oracle whose provider call and parse always succeed, returning the
record computed by `f`. -/
def okOracle (f : GenPrompt → Rat → ParsedArtifact) : Oracle :=
  fun p t => Except.ok (f p t)

/-- Temperature of the first attempt (`attempts === 1 ? 0.7 : 0.5`). -/
def tempFirst : Rat := 7 / 10

/-- Temperature of every rewrite attempt. -/
def tempRewrite : Rat := 1 / 2

/-- The prompt-input record built at the top of each loop iteration in
`generateArtifact`, for attempt number `attempts` (1-based) with the
feedback `lastErrors` of the previous attempt. -/
def mkPrompt (seedIdea : String) (segment : Segment) (platform : Platform)
    (opts : GenOptions) (attempts : Nat) (lastErrors : List String) : GenPrompt :=
  { seedIdea := seedIdea,
    monthlyTheme := opts.monthlyTheme,
    segment := segment,
    platform := platform,
    includeProductMentions := opts.includeProductMentions,
    isRewrite := attempts > 1,
    previousErrors := if attempts > 1 then some lastErrors else none }

/-- The result record of a successful `generateArtifact` call. -/
structure GenResult where
  artifact : ContentArtifact
  attempts : Nat
  validation : FullValidationResult
deriving DecidableEq, Repr

/-- The exhaustion error thrown at the bottom of `generateArtifact`. -/
def exhaustionMsg (attempts : Nat) (lastErrors : List String) : String :=
  let joined := String.intercalate ", " lastErrors
  s!"Failed to generate valid content after {attempts} attempts. Errors: {joined}"

/-- One unrolling of the `while (attempts <= maxRewriteAttempts)` loop of
`generateArtifact`.  `remaining` is the number of loop iterations left
(`maxRewriteAttempts + 1` at entry), `attempts`/`lastErrors`/`last` are the
mutable loop variables (`last` pairs the most recent normalized artifact
with its validation; both are assigned together in the source). -/
def genLoop (oracle : Oracle) (seedIdea : String) (segment : Segment)
    (platform : Platform) (opts : GenOptions) :
    Nat → Nat → List String → Option (ContentArtifact × FullValidationResult) →
    Except String GenResult
  | 0, attempts, lastErrors, last =>
      match last with
      | some (artifact, validation) =>
          .ok { artifact := { artifact with qa := validation.qa },
                attempts := attempts, validation := validation }
      | none => .error (exhaustionMsg attempts lastErrors)
  | remaining + 1, attempts, lastErrors, last =>
      let att := attempts + 1
      let prompt := mkPrompt seedIdea segment platform opts att lastErrors
      let temp := if att = 1 then tempFirst else tempRewrite
      match oracle prompt temp with
      | .error msg =>
          genLoop oracle seedIdea segment platform opts remaining att [msg] last
      | .ok parsed =>
          let artifact := normalizeArtifact parsed segment platform seedIdea opts.monthlyTheme
          let validation := validateArtifact artifact
          if validation.isValid then
            .ok { artifact := { artifact with qa := validation.qa },
                  attempts := att, validation := validation }
          else
            genLoop oracle seedIdea segment platform opts remaining att
              validation.qa.errors (some (artifact, validation))

/-- `ContentGenerator.generateArtifact` from `generator.ts`, with the
provider-plus-parse pipeline abstracted as `oracle` and the configured
`maxRewriteAttempts` passed explicitly. -/
def generateArtifact (oracle : Oracle) (maxRewriteAttempts : Nat)
    (seedIdea : String) (segment : Segment) (platform : Platform)
    (opts : GenOptions) : Except String GenResult :=
  genLoop oracle seedIdea segment platform opts (maxRewriteAttempts + 1) 0 [] none

structure GenerationRequest where
  seedIdea : String
  monthlyTheme : Option String
  segments : List Segment
  platforms : List Platform
  includeProductMentions : Option Bool
  generateABVariants : Option Bool
deriving DecidableEq, Repr

structure GenerationResponse where
  success : Bool
  artifacts : List ContentArtifact
  errors : Option (List String)
deriving DecidableEq, Repr

/-- The error entry recorded when one pair's `generateArtifact` throws. -/
def pairThrowMsg (platform : Platform) (segment : Segment) (msg : String) : String :=
  let ps := platform.str
  let ss := segment.str
  s!"{ps}/{ss}: {msg}"

/-- The error entry recorded when a pair returns an invalid artifact. -/
def pairInvalidMsg (platform : Platform) (segment : Segment)
    (errorCount attempts : Nat) : String :=
  let ps := platform.str
  let ss := segment.str
  s!"{ps}/{ss}: Generated with {errorCount} validation errors after {attempts} attempts"

/-- The single `generateArtifact` call made by `generate` for one
(segment, platform) pair of the request, with the pair's own full retry
budget. -/
def pairOutcome (oracle : Oracle) (maxRewriteAttempts : Nat)
    (request : GenerationRequest) (pair : Segment × Platform) :
    Except String GenResult :=
  generateArtifact oracle maxRewriteAttempts request.seedIdea pair.1 pair.2
    { monthlyTheme := request.monthlyTheme,
      includeProductMentions := request.includeProductMentions,
      generateABVariants := request.generateABVariants }

/-- The per-pair accumulation step of `ContentGenerator.generate`: push the
artifact when one was produced, and push an error entry when the pair threw
or produced an invalid artifact. -/
def generateStep (oracle : Oracle) (maxRewriteAttempts : Nat)
    (request : GenerationRequest)
    (acc : List ContentArtifact × List String) (pair : Segment × Platform) :
    List ContentArtifact × List String :=
  match pairOutcome oracle maxRewriteAttempts request pair with
  | .ok result =>
      (acc.1 ++ [result.artifact],
       if result.validation.isValid then acc.2
       else acc.2 ++ [pairInvalidMsg pair.2 pair.1
              result.validation.qa.errors.length result.attempts])
  | .error msg => (acc.1, acc.2 ++ [pairThrowMsg pair.2 pair.1 msg])

/-- The (segment, platform) pairs visited by the nested loops of
`generate`, in iteration order. -/
def requestPairs (request : GenerationRequest) : List (Segment × Platform) :=
  request.segments.flatMap (fun segment => request.platforms.map (fun platform => (segment, platform)))

/-- `ContentGenerator.generate` from `generator.ts`: one `generateArtifact`
call per (segment, platform) pair, aggregating artifacts and errors. -/
def generate (oracle : Oracle) (maxRewriteAttempts : Nat)
    (request : GenerationRequest) : GenerationResponse :=
  let (artifacts, errors) :=
    (requestPairs request).foldl (generateStep oracle maxRewriteAttempts request) ([], [])
  { success := errors.isEmpty,
    artifacts := artifacts,
    errors := if errors.isEmpty then none else some errors }

-- ===========================================================================
-- Scheduler (apps/web/lib/social/scheduler.ts) and the scheduled-post API
-- (apps/web/app/api/social/scheduled/route.ts)
-- ===========================================================================

inductive PostStatus where
  | pending
  | queued
  | posting
  | published
  | failed
  | cancelled
deriving DecidableEq, Repr

/-- A `ScheduledPost` row as the scheduler and the API route see it
(instants are epoch milliseconds). -/
structure ScheduledPost where
  id : String
  artifactId : String
  socialAccountId : String
  scheduledFor : Int
  timezone : String
  status : PostStatus
  publishedAt : Option Int
  externalPostId : Option String
  lastError : Option String
  retryCount : Nat
  maxRetries : Nat
  notes : Option String
deriving DecidableEq, Repr

/-- `SchedulerService.handlePostFailure` from `scheduler.ts` as a pure row
transformation: `retryDelayMs` is the configured retry delay (default
300000 ms), `now` the value of `Date.now()` at the failure.  The database
`update` writes exactly the listed fields and leaves the rest of the row
unchanged. -/
def handlePostFailure (retryDelayMs now : Int) (post : ScheduledPost)
    (error : String) : ScheduledPost :=
  if post.retryCount < post.maxRetries then
    { post with
      status := .pending,
      scheduledFor := now + retryDelayMs,
      retryCount := post.retryCount + 1,
      lastError := some error }
  else
    { post with
      status := .failed,
      lastError := some error }

/-- The outcome of the `DELETE /api/social/scheduled` handler for an
existing post. -/
inductive DeleteOutcome where
  | rejected (error : String)
  | hardDeleted
  | softCancelled (updated : ScheduledPost)
deriving DecidableEq, Repr

/-- The status dispatch of the `DELETE` handler in `route.ts`: published
posts are rejected, pending/failed posts are removed from the store, every
other status is soft-cancelled in place. -/
def deleteScheduledPost (post : ScheduledPost) : DeleteOutcome :=
  if post.status = .published then
    .rejected "Cannot delete published posts"
  else if post.status = .pending ∨ post.status = .failed then
    .hardDeleted
  else
    .softCancelled { post with status := .cancelled }

/-- A `ContentArtifact` row as the `POST` route reads it (only the columns
the handler touches). -/
structure RouteArtifact where
  id : String
  platform : String
deriving DecidableEq, Repr

/-- A `SocialAccount` row as the `POST` route reads it. -/
structure RouteAccount where
  id : String
  platform : String
  isActive : Bool
deriving DecidableEq, Repr

/-- The validated body of `POST /api/social/scheduled`. -/
structure CreateScheduledPostRequest where
  artifactId : String
  socialAccountId : String
  scheduledFor : Int
  timezone : Option String
  notes : Option String
deriving DecidableEq, Repr

/-- The `platformMap` table of the `POST` handler. -/
def platformMap (accountPlatform : String) : List String :=
  if accountPlatform = "linkedin" then ["linkedin_founder", "linkedin_company"]
  else if accountPlatform = "substack" then ["substack"]
  else []

/-- The outcome of the `POST /api/social/scheduled` handler. -/
inductive CreateOutcome where
  | artifactNotFound
  | accountNotFound
  | accountInactive
  | platformIncompatible (artifactPlatform accountPlatform : String)
  | duplicateSchedule (error : String) (existingScheduleId : String)
  | created (post : ScheduledPost)
deriving DecidableEq, Repr

/-- The duplicate-check predicate of the `POST` handler: an existing row for
the same (artifactId, socialAccountId) pair whose status is in
`["pending", "queued"]`. -/
def blocksScheduling (artifactId socialAccountId : String) (post : ScheduledPost) : Bool :=
  post.artifactId = artifactId ∧ post.socialAccountId = socialAccountId
    ∧ (post.status = .pending ∨ post.status = .queued)

/-- `POST /api/social/scheduled` from `route.ts` over an explicit store:
look up the artifact and the account, check the account is active and the
platforms compatible, reject a duplicate active schedule, and otherwise
append a new `pending` row (`newId` is the id the store assigns;
`maxRetries` takes the schema default of 3). -/
def createScheduledPost (artifacts : List RouteArtifact)
    (accounts : List RouteAccount) (posts : List ScheduledPost)
    (req : CreateScheduledPostRequest) (newId : String) :
    CreateOutcome × List ScheduledPost :=
  match artifacts.find? (fun a => a.id = req.artifactId) with
  | none => (.artifactNotFound, posts)
  | some artifact =>
    match accounts.find? (fun a => a.id = req.socialAccountId) with
    | none => (.accountNotFound, posts)
    | some account =>
      if !account.isActive then (.accountInactive, posts)
      else if !(platformMap account.platform).contains artifact.platform then
        (.platformIncompatible artifact.platform account.platform, posts)
      else
        match posts.find? (blocksScheduling req.artifactId req.socialAccountId) with
        | some existing =>
            (.duplicateSchedule "This artifact is already scheduled for this account" existing.id,
             posts)
        | none =>
            let newPost : ScheduledPost :=
              { id := newId,
                artifactId := req.artifactId,
                socialAccountId := req.socialAccountId,
                scheduledFor := req.scheduledFor,
                timezone := req.timezone.getD "America/New_York",
                status := .pending,
                publishedAt := none,
                externalPostId := none,
                lastError := none,
                retryCount := 0,
                maxRetries := 3,
                notes := req.notes }
            (.created newPost, posts ++ [newPost])

-- ===========================================================================
-- General lemmas
-- ===========================================================================

/-- The overall validity flag of `validateArtifact` is exactly the emptiness
of the collected error list. -/
lemma validateArtifact_isValid_eq (artifact : ContentArtifact) :
    (validateArtifact artifact).isValid = (validateArtifact artifact).qa.errors.isEmpty := rfl

-- ===========================================================================
-- C5: word-count bounds
-- ===========================================================================

/-- C5: `validateWordCount` counts nonempty whitespace-separated tokens and
treats both platform bounds inclusively: for a platform configured with
bounds [150, 300], a 150- or 300-word content passes, a 149-word content
fails with only the below-minimum message, a 301-word content fails with
only the above-maximum message; and `validateArtifact` applies the word
count to the hook and body joined by a blank line. -/
theorem validateWordCount_boundary :
    (∀ content platform,
        (PLATFORM_CONFIGS platform).minWords = 150 →
        (PLATFORM_CONFIGS platform).maxWords = 300 →
        ((countWords content = 150 ∨ countWords content = 300) →
            validateWordCount content platform = { isValid := true, errors := [] }) ∧
        (countWords content = 149 →
            validateWordCount content platform =
              { isValid := false,
                errors := [wcBelowMsg 149 150 (PLATFORM_CONFIGS platform).name] }) ∧
        (countWords content = 301 →
            validateWordCount content platform =
              { isValid := false,
                errors := [wcAboveMsg 301 300 (PLATFORM_CONFIGS platform).name] })) ∧
    (∀ artifact, ∃ rest,
        (validateArtifact artifact).qa.errors =
          (validateWordCount (artifact.hook ++ "\n\n" ++ artifact.body) artifact.platform).errors
            ++ rest) := by
  constructor
  · intro content platform hmin hmax
    refine ⟨fun h => ?_, fun h => ?_, fun h => ?_⟩
    · rcases h with h | h <;> simp [validateWordCount, hmin, hmax, h]
    · simp [validateWordCount, hmin, hmax, h]
    · simp [validateWordCount, hmin, hmax, h]
  · intro artifact
    refine ⟨(validateWhitespaceFormatting (fullContentOf artifact) artifact.platform).errors
      ++ ((validateSOFTMapping artifact).errors
      ++ ((validateTripleS artifact).errors
      ++ ((validateCTA artifact.tripleS.share.cta).errors
      ++ ((validateHashtags artifact.hashtags).errors
      ++ ((validateSEOTags artifact).errors
      ++ ((validateBrandVoice (fullContentOf artifact)).errors
      ++ (validateVisual artifact).errors)))))), ?_⟩
    simp only [validateArtifact, fullContentOf]
    simp [List.append_assoc]

/-- A 150-word content for the witness. -/
def contentOf150Words : String := String.intercalate " " (List.replicate 150 "soft")

/-- Witness for C5: a concrete 150-word content passes on the
LinkedIn-founder platform, whose configured bounds are [150, 300]. -/
theorem validateWordCount_boundary_witness :
    (PLATFORM_CONFIGS Platform.linkedin_founder).minWords = 150 ∧
    (PLATFORM_CONFIGS Platform.linkedin_founder).maxWords = 300 ∧
    countWords contentOf150Words = 150 ∧
    validateWordCount contentOf150Words Platform.linkedin_founder =
      { isValid := true, errors := [] } :=
  ⟨rfl, rfl, by decide,
   (validateWordCount_boundary.1 contentOf150Words Platform.linkedin_founder rfl rfl).1
     (Or.inl (by decide))⟩

-- ===========================================================================
-- C6: normalization defaults and the forced palette
-- ===========================================================================

/-- C6: for every partial parsed record, `normalizeArtifact` produces a
fully-populated artifact whose `visual.palette` is exactly the canonical
brand tuple regardless of the input, and whose missing fields are replaced
by the safe empty defaults. -/
theorem normalizeArtifact_fills_defaults_and_palette
    (parsed : ParsedArtifact) (segment : Segment) (platform : Platform)
    (seedIdea : String) (monthlyTheme : Option String) :
    (normalizeArtifact parsed segment platform seedIdea monthlyTheme).visual.palette
        = BRAND_PALETTE ∧
    BRAND_PALETTE = ["#6e3f2b", "#a6683f", "#d2955e"] ∧
    (normalizeArtifact parsed segment platform seedIdea monthlyTheme).platform = platform ∧
    (normalizeArtifact parsed segment platform seedIdea monthlyTheme).segment = segment ∧
    (normalizeArtifact parsed segment platform seedIdea monthlyTheme).seedIdea = some seedIdea ∧
    (normalizeArtifact parsed segment platform seedIdea monthlyTheme).monthlyTheme = monthlyTheme ∧
    (parsed.hook = none →
        (normalizeArtifact parsed segment platform seedIdea monthlyTheme).hook = "") ∧
    (parsed.body = none →
        (normalizeArtifact parsed segment platform seedIdea monthlyTheme).body = "") ∧
    (parsed.tripleS = none →
        (normalizeArtifact parsed segment platform seedIdea monthlyTheme).tripleS = defaultTripleS) ∧
    (parsed.soft = none →
        (normalizeArtifact parsed segment platform seedIdea monthlyTheme).soft = defaultSoft) ∧
    (parsed.hashtags = none →
        (normalizeArtifact parsed segment platform seedIdea monthlyTheme).hashtags = []) ∧
    (parsed.growth = none →
        (normalizeArtifact parsed segment platform seedIdea monthlyTheme).growth = defaultGrowth) ∧
    (parsed.qa = none →
        (normalizeArtifact parsed segment platform seedIdea monthlyTheme).qa = defaultQA) ∧
    (parsed.visual = none →
        (normalizeArtifact parsed segment platform seedIdea monthlyTheme).visual =
          { prompt := "", palette := BRAND_PALETTE, quoteCardTextOptions := [] }) := by
  refine ⟨rfl, rfl, rfl, rfl, rfl, rfl, ?_, ?_, ?_, ?_, ?_, ?_, ?_, ?_⟩ <;>
    · intro h
      simp [normalizeArtifact, h]

/-- Witness for C6: normalizing the wholly-absent parsed record yields the
empty defaults and the brand palette. -/
theorem normalizeArtifact_fills_defaults_and_palette_witness :
    emptyParsed.hook = none ∧
    (normalizeArtifact emptyParsed Segment.overextended_professional Platform.linkedin_founder
        "seed" none).visual.palette = BRAND_PALETTE ∧
    (normalizeArtifact emptyParsed Segment.overextended_professional Platform.linkedin_founder
        "seed" none).hook = "" :=
  ⟨rfl,
   (normalizeArtifact_fills_defaults_and_palette emptyParsed
      Segment.overextended_professional Platform.linkedin_founder "seed" none).1,
   (normalizeArtifact_fills_defaults_and_palette emptyParsed
      Segment.overextended_professional Platform.linkedin_founder "seed" none).2.2.2.2.2.2.1 rfl⟩

-- ===========================================================================
-- C7: the three independent hashtag rules
-- ===========================================================================

/-- C7: `validateHashtags` checks three independent rules — count in
[3, 5], at least 2 exact members of the fixed primary set, and a leading
`#` on every tag — each contributing its own error messages, so a list can
fail several rules at once; the concrete list
`["#SoftMelanin", "#Random", "#AlsoRandom"]` fails only the primary-count
rule, and appending any second primary tag yields a 4-tag list that passes
the count and primary rules (and the whole check). -/
theorem validateHashtags_three_rules :
    (∀ hashtags : List String,
        ∃ countErrs primaryErrs prefixErrs,
          (validateHashtags hashtags).errors = countErrs ++ primaryErrs ++ prefixErrs ∧
          (countErrs = [] ↔ 3 ≤ hashtags.length ∧ hashtags.length ≤ 5) ∧
          (primaryErrs = [] ↔
            2 ≤ (hashtags.filter (fun tag => PRIMARY_HASHTAGS.contains tag)).length) ∧
          (prefixErrs = [] ↔ ∀ tag ∈ hashtags, startsWithHash tag = true)) ∧
    (validateHashtags ["#SoftMelanin", "#Random", "#AlsoRandom"]).errors
        = [primaryShortfallMsg 1] ∧
    (∀ tag ∈ PRIMARY_HASHTAGS,
        (validateHashtags ["#SoftMelanin", "#Random", "#AlsoRandom", tag]).isValid = true) := by
  refine ⟨fun hashtags => ⟨_, _, _, rfl, ?_, ?_, ?_⟩, by decide, by decide⟩
  · constructor
    · intro h
      rcases List.append_eq_nil.mp h with ⟨h1, h2⟩
      constructor
      · by_contra hlt
        simp only [not_le] at hlt
        rw [if_pos hlt] at h1
        exact List.cons_ne_nil _ _ h1
      · by_contra hgt
        simp only [not_le] at hgt
        rw [if_pos hgt] at h2
        exact List.cons_ne_nil _ _ h2
    · intro h
      obtain ⟨h1, h2⟩ := h
      rw [if_neg (by omega), if_neg (by omega)]
      rfl
  · constructor
    · intro h
      by_contra hlt
      simp only [not_le] at hlt
      rw [if_pos hlt] at h
      exact List.cons_ne_nil _ _ h
    · intro h
      rw [if_neg (by omega)]
  · rw [List.map_eq_nil_iff, List.filter_eq_nil_iff]
    constructor
    · intro h tag htag
      have := h tag htag
      simpa using this
    · intro h tag htag
      simp [h tag htag]

/-- Witness for C7: appending the second primary tag `"#SoftnessIsPower"`
to the 1-primary list yields a fully valid hashtag list. -/
theorem validateHashtags_three_rules_witness :
    "#SoftnessIsPower" ∈ PRIMARY_HASHTAGS ∧
    (validateHashtags
        ["#SoftMelanin", "#Random", "#AlsoRandom", "#SoftnessIsPower"]).isValid = true :=
  ⟨by decide, validateHashtags_three_rules.2.2 "#SoftnessIsPower" (by decide)⟩

-- ===========================================================================
-- C9: delete semantics by status
-- ===========================================================================

/-- C9: deleting a scheduled post depends only on its status — a published
post is rejected, a pending or failed post is hard-deleted, and a post in
any other status is soft-cancelled: its status becomes `cancelled` and the
record (all other fields unchanged) remains. -/
theorem deleteScheduledPost_by_status (post : ScheduledPost) :
    (post.status = .published →
        deleteScheduledPost post = .rejected "Cannot delete published posts") ∧
    ((post.status = .pending ∨ post.status = .failed) →
        deleteScheduledPost post = .hardDeleted) ∧
    (post.status ≠ .published → post.status ≠ .pending → post.status ≠ .failed →
        deleteScheduledPost post = .softCancelled { post with status := .cancelled }) := by
  refine ⟨fun h => ?_, fun h => ?_, fun h1 h2 h3 => ?_⟩
  · simp [deleteScheduledPost, h]
  · rcases h with h | h <;> simp [deleteScheduledPost, h]
  · simp [deleteScheduledPost, h1, h2, h3]

/-- Witness for C9: a queued post is soft-cancelled in place. -/
theorem deleteScheduledPost_by_status_witness :
    deleteScheduledPost
        { id := "sp1", artifactId := "a1", socialAccountId := "acc1",
          scheduledFor := 0, timezone := "America/New_York",
          status := .queued, publishedAt := none, externalPostId := none,
          lastError := none, retryCount := 0, maxRetries := 3, notes := none } =
      .softCancelled
        { id := "sp1", artifactId := "a1", socialAccountId := "acc1",
          scheduledFor := 0, timezone := "America/New_York",
          status := .cancelled, publishedAt := none, externalPostId := none,
          lastError := none, retryCount := 0, maxRetries := 3, notes := none } :=
  (deleteScheduledPost_by_status _).2.2 (by decide) (by decide) (by decide)

-- ===========================================================================
-- C10: frame of the terminal-failure update
-- ===========================================================================

/-- C10: when a publish failure is handled for a post whose `retryCount`
has already reached `maxRetries`, the update writes only `status` (to
`failed`) and `lastError`; in particular `retryCount` and `scheduledFor`
(and every other field) keep their previous values. -/
theorem handlePostFailure_terminal_frame (retryDelayMs now : Int)
    (post : ScheduledPost) (error : String)
    (h : post.maxRetries ≤ post.retryCount) :
    (handlePostFailure retryDelayMs now post error).status = .failed ∧
    (handlePostFailure retryDelayMs now post error).lastError = some error ∧
    (handlePostFailure retryDelayMs now post error).retryCount = post.retryCount ∧
    (handlePostFailure retryDelayMs now post error).scheduledFor = post.scheduledFor ∧
    (handlePostFailure retryDelayMs now post error).id = post.id ∧
    (handlePostFailure retryDelayMs now post error).artifactId = post.artifactId ∧
    (handlePostFailure retryDelayMs now post error).socialAccountId = post.socialAccountId ∧
    (handlePostFailure retryDelayMs now post error).timezone = post.timezone ∧
    (handlePostFailure retryDelayMs now post error).publishedAt = post.publishedAt ∧
    (handlePostFailure retryDelayMs now post error).externalPostId = post.externalPostId ∧
    (handlePostFailure retryDelayMs now post error).maxRetries = post.maxRetries ∧
    (handlePostFailure retryDelayMs now post error).notes = post.notes := by
  have hnot : ¬ post.retryCount < post.maxRetries := by omega
  simp [handlePostFailure, hnot]

/-- Witness for C10: a post at `retryCount = 3 = maxRetries` is marked
failed with nothing else changed. -/
theorem handlePostFailure_terminal_frame_witness :
    (handlePostFailure 300000 7777
        { id := "sp1", artifactId := "a1", socialAccountId := "acc1",
          scheduledFor := 42, timezone := "America/New_York",
          status := .posting, publishedAt := none, externalPostId := none,
          lastError := some "old", retryCount := 3, maxRetries := 3, notes := none }
        "boom").status = .failed ∧
    (handlePostFailure 300000 7777
        { id := "sp1", artifactId := "a1", socialAccountId := "acc1",
          scheduledFor := 42, timezone := "America/New_York",
          status := .posting, publishedAt := none, externalPostId := none,
          lastError := some "old", retryCount := 3, maxRetries := 3, notes := none }
        "boom").retryCount = 3 ∧
    (handlePostFailure 300000 7777
        { id := "sp1", artifactId := "a1", socialAccountId := "acc1",
          scheduledFor := 42, timezone := "America/New_York",
          status := .posting, publishedAt := none, externalPostId := none,
          lastError := some "old", retryCount := 3, maxRetries := 3, notes := none }
        "boom").scheduledFor = 42 :=
  ⟨(handlePostFailure_terminal_frame 300000 7777 _ "boom" (by decide)).1,
   (handlePostFailure_terminal_frame 300000 7777 _ "boom" (by decide)).2.2.1,
   (handlePostFailure_terminal_frame 300000 7777 _ "boom" (by decide)).2.2.2.1⟩

-- ===========================================================================
-- C3: retry-then-fail dispatch
-- ===========================================================================

/-- The concrete post of the C3 scenario: fresh, with `maxRetries = 3`. -/
def c3Post : ScheduledPost :=
  { id := "sp1", artifactId := "a1", socialAccountId := "acc1",
    scheduledFor := 0, timezone := "America/New_York", status := .pending,
    publishedAt := none, externalPostId := none, lastError := none,
    retryCount := 0, maxRetries := 3, notes := none }

/-- Counterexample for C3: for a post with `maxRetries = 3`, three
consecutive publish failures do NOT reach `failed` — after the third
failure the post is still `pending`, with `retryCount = 3`. -/
theorem handlePostFailure_three_failures_still_pending :
    (handlePostFailure 300000 1000
        (handlePostFailure 300000 500
          (handlePostFailure 300000 0 c3Post "e1") "e2") "e3").status = .pending ∧
    (handlePostFailure 300000 1000
        (handlePostFailure 300000 500
          (handlePostFailure 300000 0 c3Post "e1") "e2") "e3").status ≠ .failed ∧
    (handlePostFailure 300000 1000
        (handlePostFailure 300000 500
          (handlePostFailure 300000 0 c3Post "e1") "e2") "e3").retryCount = 3 := by
  decide

/-- C3 (amended): on a publish failure, if `retryCount < maxRetries` the
post reverts to `pending` with `scheduledFor` moved to now plus the retry
delay, `retryCount` incremented and `lastError` set; if
`retryCount ≥ maxRetries` the post becomes `failed` with `lastError` set
and nothing else changed.  For a post with `maxRetries = 3` it takes FOUR
consecutive failures to reach `failed`: the first three each leave it
`pending` with `retryCount` incrementing 0→1→2→3 (and `scheduledFor`
advancing by the retry delay each time), and the fourth marks it `failed`
with `retryCount` staying 3. -/
theorem handlePostFailure_retry_rules (retryDelayMs : Int) (post : ScheduledPost)
    (error : String) :
    (∀ now : Int, post.retryCount < post.maxRetries →
        handlePostFailure retryDelayMs now post error =
          { post with
            status := .pending,
            scheduledFor := now + retryDelayMs,
            retryCount := post.retryCount + 1,
            lastError := some error }) ∧
    (∀ now : Int, post.maxRetries ≤ post.retryCount →
        handlePostFailure retryDelayMs now post error =
          { post with status := .failed, lastError := some error }) ∧
    (∀ t1 t2 t3 t4 : Int, ∀ e1 e2 e3 e4 : String,
        post.retryCount = 0 → post.maxRetries = 3 →
        ((handlePostFailure retryDelayMs t1 post e1).status = .pending ∧
         (handlePostFailure retryDelayMs t1 post e1).retryCount = 1 ∧
         (handlePostFailure retryDelayMs t1 post e1).scheduledFor = t1 + retryDelayMs) ∧
        ((handlePostFailure retryDelayMs t2
            (handlePostFailure retryDelayMs t1 post e1) e2).status = .pending ∧
         (handlePostFailure retryDelayMs t2
            (handlePostFailure retryDelayMs t1 post e1) e2).retryCount = 2 ∧
         (handlePostFailure retryDelayMs t2
            (handlePostFailure retryDelayMs t1 post e1) e2).scheduledFor = t2 + retryDelayMs) ∧
        ((handlePostFailure retryDelayMs t3
            (handlePostFailure retryDelayMs t2
              (handlePostFailure retryDelayMs t1 post e1) e2) e3).status = .pending ∧
         (handlePostFailure retryDelayMs t3
            (handlePostFailure retryDelayMs t2
              (handlePostFailure retryDelayMs t1 post e1) e2) e3).retryCount = 3 ∧
         (handlePostFailure retryDelayMs t3
            (handlePostFailure retryDelayMs t2
              (handlePostFailure retryDelayMs t1 post e1) e2) e3).scheduledFor
            = t3 + retryDelayMs) ∧
        ((handlePostFailure retryDelayMs t4
            (handlePostFailure retryDelayMs t3
              (handlePostFailure retryDelayMs t2
                (handlePostFailure retryDelayMs t1 post e1) e2) e3) e4).status = .failed ∧
         (handlePostFailure retryDelayMs t4
            (handlePostFailure retryDelayMs t3
              (handlePostFailure retryDelayMs t2
                (handlePostFailure retryDelayMs t1 post e1) e2) e3) e4).retryCount = 3 ∧
         (handlePostFailure retryDelayMs t4
            (handlePostFailure retryDelayMs t3
              (handlePostFailure retryDelayMs t2
                (handlePostFailure retryDelayMs t1 post e1) e2) e3) e4).lastError
            = some e4)) := by
  refine ⟨fun now h => ?_, fun now h => ?_, fun t1 t2 t3 t4 e1 e2 e3 e4 h0 hm => ?_⟩
  · simp [handlePostFailure, h]
  · have hnot : ¬ post.retryCount < post.maxRetries := by omega
    simp [handlePostFailure, hnot]
  · simp [handlePostFailure, h0, hm]

/-- Witness for C3 (amended): the four-failure scenario run on the concrete
fresh post. -/
theorem handlePostFailure_retry_rules_witness :
    c3Post.retryCount = 0 ∧ c3Post.maxRetries = 3 ∧
    (handlePostFailure 300000 0 c3Post "e1").status = .pending ∧
    (handlePostFailure 300000 1500
        (handlePostFailure 300000 1000
          (handlePostFailure 300000 500
            (handlePostFailure 300000 0 c3Post "e1") "e2") "e3") "e4").status = .failed :=
  ⟨rfl, rfl,
   ((handlePostFailure_retry_rules 300000 c3Post "e1").2.2 0 500 1000 1500
      "e1" "e2" "e3" "e4" rfl rfl).1.1,
   ((handlePostFailure_retry_rules 300000 c3Post "e1").2.2 0 500 1000 1500
      "e1" "e2" "e3" "e4" rfl rfl).2.2.2.1⟩

-- ===========================================================================
-- C4: duplicate-schedule rejection
-- ===========================================================================

/-- The artifact row of the C4 scenario. -/
def c4Artifact : RouteArtifact := { id := "art1", platform := "linkedin_founder" }

/-- The account row of the C4 scenario. -/
def c4Account : RouteAccount := { id := "acc1", platform := "linkedin", isActive := true }

/-- An existing schedule for the (art1, acc1) pair that is mid-dispatch. -/
def c4PostingPost : ScheduledPost :=
  { id := "sp0", artifactId := "art1", socialAccountId := "acc1",
    scheduledFor := 0, timezone := "America/New_York", status := .posting,
    publishedAt := none, externalPostId := none, lastError := none,
    retryCount := 0, maxRetries := 3, notes := none }

/-- The creation request of the C4 scenario, for the same pair. -/
def c4Req : CreateScheduledPostRequest :=
  { artifactId := "art1", socialAccountId := "acc1", scheduledFor := 1000,
    timezone := none, notes := none }

/-- The row the C4 creation appends. -/
def c4NewPost : ScheduledPost :=
  { id := "sp1", artifactId := "art1", socialAccountId := "acc1",
    scheduledFor := 1000, timezone := "America/New_York", status := .pending,
    publishedAt := none, externalPostId := none, lastError := none,
    retryCount := 0, maxRetries := 3, notes := none }

/-- Counterexample for C4: with an existing schedule in status `posting`
for the same (artifactId, socialAccountId) pair, a second creation is NOT
rejected — it succeeds and appends a new record, because the duplicate
check only queries statuses `pending` and `queued`. -/
theorem createScheduledPost_posting_does_not_block :
    c4PostingPost.artifactId = c4Req.artifactId ∧
    c4PostingPost.socialAccountId = c4Req.socialAccountId ∧
    c4PostingPost.status = .posting ∧
    createScheduledPost [c4Artifact] [c4Account] [c4PostingPost] c4Req "sp1" =
      (.created c4NewPost, [c4PostingPost, c4NewPost]) := by
  decide

/-- C4 (amended): the duplicate check treats `pending` and `queued` as the
blocking statuses (a schedule in status `posting` never blocks): for an
otherwise-valid request, if the store holds a schedule for the same pair
in status `pending` or `queued`, creation is rejected with the
"already scheduled" error referencing the existing schedule's id and the
store is unchanged; if no such schedule exists, a fresh `pending` row for
the pair is appended. -/
theorem createScheduledPost_duplicate_rules
    (artifacts : List RouteArtifact) (accounts : List RouteAccount)
    (posts : List ScheduledPost) (req : CreateScheduledPostRequest)
    (newId : String) (artifact : RouteArtifact) (account : RouteAccount)
    (hart : artifacts.find? (fun a => a.id = req.artifactId) = some artifact)
    (hacc : accounts.find? (fun a => a.id = req.socialAccountId) = some account)
    (hactive : account.isActive = true)
    (hcompat : (platformMap account.platform).contains artifact.platform = true) :
    (∀ existing,
        posts.find? (blocksScheduling req.artifactId req.socialAccountId) = some existing →
        createScheduledPost artifacts accounts posts req newId =
            (.duplicateSchedule "This artifact is already scheduled for this account"
              existing.id, posts) ∧
          existing.artifactId = req.artifactId ∧
          existing.socialAccountId = req.socialAccountId ∧
          (existing.status = .pending ∨ existing.status = .queued)) ∧
    (posts.find? (blocksScheduling req.artifactId req.socialAccountId) = none →
        ∃ newPost, createScheduledPost artifacts accounts posts req newId =
            (.created newPost, posts ++ [newPost]) ∧
          newPost.status = .pending ∧ newPost.id = newId ∧
          newPost.artifactId = req.artifactId ∧
          newPost.socialAccountId = req.socialAccountId) ∧
    (∀ p : ScheduledPost, p.status = .posting →
        blocksScheduling req.artifactId req.socialAccountId p = false) := by
  have hmem : artifact.platform ∈ platformMap account.platform := by
    simpa using hcompat
  refine ⟨fun existing hex => ⟨?_, ?_⟩, fun hnone => ?_, fun p hp => ?_⟩
  · simp [createScheduledPost, hart, hacc, hactive, hmem, hex]
  · have hpred := List.find?_some hex
    simp only [blocksScheduling, decide_eq_true_eq] at hpred
    tauto
  · refine ⟨⟨newId, req.artifactId, req.socialAccountId, req.scheduledFor,
      req.timezone.getD "America/New_York", .pending, none, none, none, 0, 3,
      req.notes⟩, ?_, rfl, rfl, rfl, rfl⟩
    simp [createScheduledPost, hart, hacc, hactive, hmem, hnone]
  · unfold blocksScheduling
    apply decide_eq_false
    rintro ⟨-, -, h | h⟩ <;> rw [hp] at h <;> exact absurd h (by decide)

/-- An existing pending schedule for the C4 witness. -/
def c4PendingPost : ScheduledPost :=
  { id := "sp0", artifactId := "art1", socialAccountId := "acc1",
    scheduledFor := 0, timezone := "America/New_York", status := .pending,
    publishedAt := none, externalPostId := none, lastError := none,
    retryCount := 0, maxRetries := 3, notes := none }

/-- Witness for C4 (amended): a second creation against an existing pending
schedule is rejected with the existing id and leaves the store unchanged. -/
theorem createScheduledPost_duplicate_rules_witness :
    createScheduledPost [c4Artifact] [c4Account] [c4PendingPost] c4Req "sp1" =
      (.duplicateSchedule "This artifact is already scheduled for this account" "sp0",
       [c4PendingPost]) :=
  ((createScheduledPost_duplicate_rules [c4Artifact] [c4Account] [c4PendingPost]
      c4Req "sp1" c4Artifact c4Account (by decide) (by decide) (by decide)
      (by decide)).1 c4PendingPost (by decide)).1

-- ===========================================================================
-- C1: exhausted retries with a parseable-but-invalid provider
-- ===========================================================================

/-- The loop state (`lastErrors`, latest artifact/validation pair) after `k`
attempts against an oracle that always parses, whose parse results are
given by `f`: attempt `k+1` is prompted with the feedback of attempt `k`. -/
def invalidChain (f : GenPrompt → Rat → ParsedArtifact) (seedIdea : String)
    (segment : Segment) (platform : Platform) (opts : GenOptions) :
    Nat → List String × Option (ContentArtifact × FullValidationResult)
  | 0 => ([], none)
  | k + 1 =>
      let le := (invalidChain f seedIdea segment platform opts k).1
      let prompt := mkPrompt seedIdea segment platform opts (k + 1) le
      let temp := if k + 1 = 1 then tempFirst else tempRewrite
      let artifact := normalizeArtifact (f prompt temp) segment platform seedIdea opts.monthlyTheme
      let validation := validateArtifact artifact
      (validation.qa.errors, some (artifact, validation))

/-- Running `genLoop` against an always-parsing oracle whose every artifact
is invalid never returns early, and ends in the state described by
`invalidChain`. -/
lemma genLoop_invalid_run (f : GenPrompt → Rat → ParsedArtifact)
    (seedIdea : String) (segment : Segment) (platform : Platform)
    (opts : GenOptions)
    (hinv : ∀ p t, (validateArtifact
        (normalizeArtifact (f p t) segment platform seedIdea opts.monthlyTheme)).isValid
          = false) :
    ∀ r s, genLoop (okOracle f) seedIdea segment platform opts r s
        (invalidChain f seedIdea segment platform opts s).1
        (invalidChain f seedIdea segment platform opts s).2 =
      (match (invalidChain f seedIdea segment platform opts (s + r)).2 with
       | some (artifact, validation) =>
           .ok { artifact := { artifact with qa := validation.qa },
                 attempts := s + r, validation := validation }
       | none => .error (exhaustionMsg (s + r)
           (invalidChain f seedIdea segment platform opts (s + r)).1)) := by
  intro r
  induction r with
  | zero =>
      intro s
      cases hc : (invalidChain f seedIdea segment platform opts s).2 with
      | none => simp [genLoop, hc]
      | some pair =>
          obtain ⟨artifact, validation⟩ := pair
          simp [genLoop, hc]
  | succ r ih =>
      intro s
      simp only [genLoop, okOracle]
      rw [if_neg (by simp [hinv])]
      have hfold :
          genLoop (okOracle f) seedIdea segment platform opts r (s + 1)
            (invalidChain f seedIdea segment platform opts (s + 1)).1
            (invalidChain f seedIdea segment platform opts (s + 1)).2 =
          genLoop (okOracle f) seedIdea segment platform opts r (s + 1)
            (validateArtifact (normalizeArtifact
              (f (mkPrompt seedIdea segment platform opts (s + 1)
                    (invalidChain f seedIdea segment platform opts s).1)
                 (if s + 1 = 1 then tempFirst else tempRewrite))
              segment platform seedIdea opts.monthlyTheme)).qa.errors
            (some (normalizeArtifact
              (f (mkPrompt seedIdea segment platform opts (s + 1)
                    (invalidChain f seedIdea segment platform opts s).1)
                 (if s + 1 = 1 then tempFirst else tempRewrite))
              segment platform seedIdea opts.monthlyTheme,
              validateArtifact (normalizeArtifact
                (f (mkPrompt seedIdea segment platform opts (s + 1)
                      (invalidChain f seedIdea segment platform opts s).1)
                   (if s + 1 = 1 then tempFirst else tempRewrite))
                segment platform seedIdea opts.monthlyTheme))) := rfl
      rw [← hfold, ih (s + 1)]
      have harith : s + 1 + r = s + (r + 1) := by omega
      rw [harith]

/-- The prompt of attempt 1 (no rewrite, no feedback). -/
def c1Prompt1 (seedIdea : String) (segment : Segment) (platform : Platform)
    (opts : GenOptions) : GenPrompt :=
  mkPrompt seedIdea segment platform opts 1 []

/-- The normalized artifact of attempt 1. -/
def c1Art1 (f : GenPrompt → Rat → ParsedArtifact) (seedIdea : String)
    (segment : Segment) (platform : Platform) (opts : GenOptions) : ContentArtifact :=
  normalizeArtifact (f (c1Prompt1 seedIdea segment platform opts) tempFirst)
    segment platform seedIdea opts.monthlyTheme

/-- The prompt of attempt 2: a rewrite carrying attempt 1's errors. -/
def c1Prompt2 (f : GenPrompt → Rat → ParsedArtifact) (seedIdea : String)
    (segment : Segment) (platform : Platform) (opts : GenOptions) : GenPrompt :=
  mkPrompt seedIdea segment platform opts 2
    (validateArtifact (c1Art1 f seedIdea segment platform opts)).qa.errors

/-- The normalized artifact of attempt 2. -/
def c1Art2 (f : GenPrompt → Rat → ParsedArtifact) (seedIdea : String)
    (segment : Segment) (platform : Platform) (opts : GenOptions) : ContentArtifact :=
  normalizeArtifact (f (c1Prompt2 f seedIdea segment platform opts) tempRewrite)
    segment platform seedIdea opts.monthlyTheme

/-- The prompt of attempt 3: a rewrite carrying attempt 2's errors. -/
def c1Prompt3 (f : GenPrompt → Rat → ParsedArtifact) (seedIdea : String)
    (segment : Segment) (platform : Platform) (opts : GenOptions) : GenPrompt :=
  mkPrompt seedIdea segment platform opts 3
    (validateArtifact (c1Art2 f seedIdea segment platform opts)).qa.errors

/-- The normalized artifact of attempt 3 (the final budgeted attempt). -/
def c1Art3 (f : GenPrompt → Rat → ParsedArtifact) (seedIdea : String)
    (segment : Segment) (platform : Platform) (opts : GenOptions) : ContentArtifact :=
  normalizeArtifact (f (c1Prompt3 f seedIdea segment platform opts) tempRewrite)
    segment platform seedIdea opts.monthlyTheme

/-- C1: with `maxRewriteAttempts = 2` and a provider that on every attempt
returns a parseable but invalid artifact, `generateArtifact` returns (does
not throw) after exactly 3 attempts; the returned record carries
`attempts = 3`, the invalid validation, a nonempty error list in the
artifact's `qa` field, and the artifact produced on the last attempt. -/
theorem generateArtifact_exhausted_returns_last_invalid
    (f : GenPrompt → Rat → ParsedArtifact) (seedIdea : String)
    (segment : Segment) (platform : Platform) (opts : GenOptions)
    (hinv : ∀ p t, (validateArtifact
        (normalizeArtifact (f p t) segment platform seedIdea opts.monthlyTheme)).isValid
          = false) :
    generateArtifact (okOracle f) 2 seedIdea segment platform opts =
      .ok { artifact := { c1Art3 f seedIdea segment platform opts with
              qa := (validateArtifact (c1Art3 f seedIdea segment platform opts)).qa },
            attempts := 3,
            validation := validateArtifact (c1Art3 f seedIdea segment platform opts) } ∧
    (validateArtifact (c1Art3 f seedIdea segment platform opts)).isValid = false ∧
    (validateArtifact (c1Art3 f seedIdea segment platform opts)).qa.errors ≠ [] := by
  have hrun := genLoop_invalid_run f seedIdea segment platform opts hinv 3 0
  have hvalid : (validateArtifact (c1Art3 f seedIdea segment platform opts)).isValid = false :=
    hinv (c1Prompt3 f seedIdea segment platform opts) tempRewrite
  refine ⟨?_, hvalid, ?_⟩
  · exact hrun
  · intro hnil
    have h2 := hvalid
    rw [validateArtifact_isValid_eq, hnil] at h2
    simp at h2

/-- The parse-result function of the C1 witness: every attempt parses to
the wholly-absent record. -/
def c1WitnessF : GenPrompt → Rat → ParsedArtifact := fun _ _ => emptyParsed

/-- The options record used by the concrete generator witnesses. -/
def witnessOpts : GenOptions :=
  { monthlyTheme := none, includeProductMentions := none, generateABVariants := none }

/-- Witness for C1: the always-empty parse result is invalid on every
attempt, and the concrete run returns the attempt-3 artifact with
`attempts = 3` and an invalid validation. -/
theorem generateArtifact_exhausted_returns_last_invalid_witness :
    generateArtifact (okOracle c1WitnessF) 2 "seed"
        Segment.overextended_professional Platform.linkedin_founder witnessOpts =
      .ok { artifact := { c1Art3 c1WitnessF "seed" Segment.overextended_professional
                Platform.linkedin_founder witnessOpts with
              qa := (validateArtifact (c1Art3 c1WitnessF "seed"
                Segment.overextended_professional Platform.linkedin_founder
                witnessOpts)).qa },
            attempts := 3,
            validation := validateArtifact (c1Art3 c1WitnessF "seed"
              Segment.overextended_professional Platform.linkedin_founder witnessOpts) } ∧
    (validateArtifact (c1Art3 c1WitnessF "seed" Segment.overextended_professional
        Platform.linkedin_founder witnessOpts)).isValid = false ∧
    (validateArtifact (c1Art3 c1WitnessF "seed" Segment.overextended_professional
        Platform.linkedin_founder witnessOpts)).qa.errors ≠ [] :=
  generateArtifact_exhausted_returns_last_invalid c1WitnessF "seed"
    Segment.overextended_professional Platform.linkedin_founder witnessOpts
    (fun p t => by
      show (validateArtifact (normalizeArtifact emptyParsed
        Segment.overextended_professional Platform.linkedin_founder "seed"
        none)).isValid = false
      decide)

-- ===========================================================================
-- C2: total provider failure
-- ===========================================================================

/-- Running `genLoop` with no artifact yet against an oracle that always
throws ends with the exhaustion error after consuming the whole budget; the
message carries a single oracle error message (the feedback list is
overwritten, not accumulated, so only the final attempt's message
survives). -/
lemma genLoop_all_error_run (oracle : Oracle) (seedIdea : String)
    (segment : Segment) (platform : Platform) (opts : GenOptions)
    (herr : ∀ p t, ∃ msg, oracle p t = .error msg) :
    ∀ r attempts lastErrors,
      ∃ lastMsg p t, oracle p t = .error lastMsg ∧
        genLoop oracle seedIdea segment platform opts (r + 1) attempts lastErrors none =
          .error (exhaustionMsg (attempts + (r + 1)) [lastMsg]) := by
  intro r
  induction r with
  | zero =>
      intro attempts lastErrors
      obtain ⟨msg, hmsg⟩ := herr
        (mkPrompt seedIdea segment platform opts (attempts + 1) lastErrors)
        (if attempts + 1 = 1 then tempFirst else tempRewrite)
      refine ⟨msg, _, _, hmsg, ?_⟩
      simp only [genLoop, hmsg]
  | succ r ih =>
      intro attempts lastErrors
      obtain ⟨msg0, hmsg0⟩ := herr
        (mkPrompt seedIdea segment platform opts (attempts + 1) lastErrors)
        (if attempts + 1 = 1 then tempFirst else tempRewrite)
      obtain ⟨lastMsg, p, t, hpt, hrun⟩ := ih (attempts + 1) [msg0]
      refine ⟨lastMsg, p, t, hpt, ?_⟩
      have hstep :
          genLoop oracle seedIdea segment platform opts (r + 1 + 1) attempts lastErrors none =
          genLoop oracle seedIdea segment platform opts (r + 1) (attempts + 1) [msg0] none := by
        simp only [genLoop, hmsg0]
      rw [hstep, hrun]
      have harith : attempts + 1 + (r + 1) = attempts + (r + 1 + 1) := by omega
      rw [harith]

/-- C2 (amended): with a provider that throws on every attempt,
`generateArtifact` throws after exactly `maxRewriteAttempts + 1` attempts;
the thrown message reports that attempt count but carries only the error
message captured on the final attempt (the feedback variable is overwritten
on each attempt, not accumulated). -/
theorem generateArtifact_total_failure_throws_last_feedback (oracle : Oracle)
    (maxRewriteAttempts : Nat) (seedIdea : String) (segment : Segment)
    (platform : Platform) (opts : GenOptions)
    (herr : ∀ p t, ∃ msg, oracle p t = .error msg) :
    ∃ lastMsg p t, oracle p t = .error lastMsg ∧
      generateArtifact oracle maxRewriteAttempts seedIdea segment platform opts =
        .error (exhaustionMsg (maxRewriteAttempts + 1) [lastMsg]) := by
  obtain ⟨lastMsg, p, t, hpt, hrun⟩ :=
    genLoop_all_error_run oracle seedIdea segment platform opts herr
      maxRewriteAttempts 0 []
  refine ⟨lastMsg, p, t, hpt, ?_⟩
  simpa [generateArtifact] using hrun

/-- An always-throwing oracle whose error message differs on each attempt
(the prompt's feedback field distinguishes the attempts). -/
def c2Oracle : Oracle := fun p _ =>
  .error (if p.isRewrite = false then "errA"
          else if p.previousErrors = some ["errA"] then "errB" else "errC")

/-- The message thrown by the concrete C2 run. -/
def c2FinalMsg : String :=
  "Failed to generate valid content after 3 attempts. Errors: errC"

/-- Counterexample for C2: a provider throwing "errA", "errB", "errC" on
the three attempts makes `generateArtifact` (with `maxRewriteAttempts = 2`)
throw a message that names only the final attempt's "errC" — the messages
of the earlier attempts are absent, so the message is not the concatenated
history of all accumulated feedback. -/
theorem generateArtifact_total_failure_counterexample :
    c2Oracle (mkPrompt "seed" Segment.overextended_professional
        Platform.linkedin_founder witnessOpts 1 []) tempFirst = .error "errA" ∧
    generateArtifact c2Oracle 2 "seed" Segment.overextended_professional
        Platform.linkedin_founder witnessOpts = .error c2FinalMsg ∧
    strContains c2FinalMsg "errA" = false ∧
    strContains c2FinalMsg "errB" = false ∧
    strContains c2FinalMsg "errC" = true := by
  refine ⟨rfl, rfl, by decide, by decide, by decide⟩

/-- The constant always-throwing oracle of the C2 witness. -/
def constFailOracle : Oracle := fun _ _ => .error "provider down"

/-- Witness for C2 (amended): the constant-failure oracle throws after 3
attempts with the final attempt's message. -/
theorem generateArtifact_total_failure_throws_last_feedback_witness :
    ∃ lastMsg p t, constFailOracle p t = .error lastMsg ∧
      generateArtifact constFailOracle 2 "seed" Segment.overextended_professional
          Platform.linkedin_founder witnessOpts =
        .error (exhaustionMsg 3 [lastMsg]) :=
  generateArtifact_total_failure_throws_last_feedback constFailOracle 2 "seed"
    Segment.overextended_professional Platform.linkedin_founder witnessOpts
    (fun _ _ => ⟨"provider down", rfl⟩)

-- ===========================================================================
-- C8: per-pair aggregation of the batch call
-- ===========================================================================

/-- The artifact a (segment, platform) pair contributes to the batch
response: the one its own `generateArtifact` run produced, if it did not
throw. -/
def pairArtifact (oracle : Oracle) (maxRewriteAttempts : Nat)
    (request : GenerationRequest) (pair : Segment × Platform) :
    Option ContentArtifact :=
  match pairOutcome oracle maxRewriteAttempts request pair with
  | .ok result => some result.artifact
  | .error _ => none

/-- The error entry a (segment, platform) pair contributes to the batch
response: one entry when its run threw, one entry when its run returned an
invalid artifact, none otherwise. -/
def pairErrorEntry (oracle : Oracle) (maxRewriteAttempts : Nat)
    (request : GenerationRequest) (pair : Segment × Platform) : Option String :=
  match pairOutcome oracle maxRewriteAttempts request pair with
  | .ok result =>
      if result.validation.isValid then none
      else some (pairInvalidMsg pair.2 pair.1
        result.validation.qa.errors.length result.attempts)
  | .error msg => some (pairThrowMsg pair.2 pair.1 msg)

/-- The nested loops of `generate` accumulate exactly the per-pair
artifacts and error entries, in iteration order. -/
lemma foldl_generateStep (oracle : Oracle) (maxRewriteAttempts : Nat)
    (request : GenerationRequest) :
    ∀ (pairs : List (Segment × Platform)) (acc : List ContentArtifact × List String),
      pairs.foldl (generateStep oracle maxRewriteAttempts request) acc =
        (acc.1 ++ pairs.filterMap (pairArtifact oracle maxRewriteAttempts request),
         acc.2 ++ pairs.filterMap (pairErrorEntry oracle maxRewriteAttempts request)) := by
  intro pairs
  induction pairs with
  | nil => intro acc; simp
  | cons pair rest ih =>
      intro acc
      rw [List.foldl_cons, ih]
      cases hout : pairOutcome oracle maxRewriteAttempts request pair with
      | ok result =>
          by_cases hv : result.validation.isValid = true
          · simp [generateStep, pairArtifact, pairErrorEntry, hout, hv,
              List.filterMap_cons]
          · simp only [Bool.not_eq_true] at hv
            simp [generateStep, pairArtifact, pairErrorEntry, hout, hv,
              List.filterMap_cons]
      | error msg =>
          simp [generateStep, pairArtifact, pairErrorEntry, hout,
            List.filterMap_cons]

/-- C8: the batch call runs one `generateArtifact` per (segment, platform)
pair of the request, each with its own retry budget; the response's
artifact list is exactly the artifacts of the pairs whose run returned one
(a throwing pair never blocks the others), its error list holds exactly one
entry per pair that threw or returned an invalid artifact, and the success
flag is the emptiness of that error list. -/
theorem generate_per_pair_aggregation (oracle : Oracle) (maxRewriteAttempts : Nat)
    (request : GenerationRequest) :
    (generate oracle maxRewriteAttempts request).artifacts =
        (requestPairs request).filterMap (pairArtifact oracle maxRewriteAttempts request) ∧
    (generate oracle maxRewriteAttempts request).errors.getD [] =
        (requestPairs request).filterMap (pairErrorEntry oracle maxRewriteAttempts request) ∧
    (generate oracle maxRewriteAttempts request).success =
        ((requestPairs request).filterMap
          (pairErrorEntry oracle maxRewriteAttempts request)).isEmpty := by
  have h := foldl_generateStep oracle maxRewriteAttempts request (requestPairs request) ([], [])
  refine ⟨?_, ?_, ?_⟩
  · simp [generate, h]
  · simp only [generate, h]
    cases hl : (requestPairs request).filterMap
        (pairErrorEntry oracle maxRewriteAttempts request) with
    | nil => simp
    | cons e rest => simp
  · simp [generate, h]

end SoftMelanin
